import Mathlib

/-!
# DT-Investment: formal model of the loan-origination core

A shallow embedding of the loan services of the DT-Investment repository:

* the amortization schedule calculator (`src/services/loanService.js`,
  `calculatePaymentSchedule`),
* the approval chain builder (`createApprovalWorkflow` in
  `src/services/loanService.js` and `getRequiredRoleForLevel` in the
  loan-approval service),
* the approval workflow engine (`processApproval`, `escalateApproval`,
  `bulkApprove` in the loan-approval service),
* the risk scorer (the `assess*` functions, `calculateOverallRiskScore`,
  `determineRiskLevel` in the risk-assessment service).

JavaScript numbers are modelled as exact rationals; the one place where the
code can produce a non-finite number (the `0/0` of the amortization formula
at rate 0) is modelled explicitly with an `Option` wrapper, `none` standing
for a non-finite value (NaN or an infinity), which JavaScript arithmetic
propagates.  Database state is modelled as in-memory lists of records; a
thrown error inside a `transaction` callback rolls the state back, which the
model renders by returning `Except.error` without a new state.
-/

namespace DTInvestment

/-! ## JavaScript-number model -/

/-- A JavaScript number: a finite rational, or `none` for a non-finite value
(NaN or ±Infinity).  In `calculatePaymentSchedule` the only operation that
can produce a non-finite value is the division of the amortization formula
(`0/0` when the monthly rate is 0); every other arithmetic operation
propagates non-finiteness just as JavaScript propagates NaN. -/
abbrev JQ := Option ℚ

/-- JavaScript `+` (NaN-propagating). -/
def jadd : JQ → JQ → JQ
  | some a, some b => some (a + b)
  | _, _ => none

/-- JavaScript `-` (NaN-propagating). -/
def jsub : JQ → JQ → JQ
  | some a, some b => some (a - b)
  | _, _ => none

/-- JavaScript `*` (NaN-propagating). -/
def jmul : JQ → JQ → JQ
  | some a, some b => some (a * b)
  | _, _ => none

/-- JavaScript `/`.  Division by zero yields a non-finite value (`0/0` is
NaN, `x/0` an infinity); both are collapsed to `none`. -/
def jdiv : JQ → JQ → JQ
  | some a, some b => if b = 0 then none else some (a / b)
  | _, _ => none

/-- JavaScript `>`: comparisons involving NaN are false. -/
def jgt : JQ → JQ → Bool
  | some a, some b => decide (b < a)
  | _, _ => false

/-- `Math.max(0, x)`; `Math.max(0, NaN)` is NaN. -/
def jmax0 : JQ → JQ
  | some a => some (max 0 a)
  | none => none

/-- `Math.round(x * 100) / 100` on a finite rational.  JavaScript
`Math.round` is `⌊x + 1/2⌋`, which is exactly Mathlib's `round`. -/
def round2 (a : ℚ) : ℚ := (round (a * 100) : ℤ) / 100

/-- `Math.round(x * 100) / 100`; `Math.round(NaN)` is NaN. -/
def jround2 : JQ → JQ
  | some a => some (round2 a)
  | none => none

/-! ## Schedule calculator (`src/services/loanService.js`, lines 386–469)

Due dates are driven by the `moment` date library and are not modelled: no
claim refers to them.  Decimal literals of the source are modelled as exact
rationals. -/

/-- One row of the amortization schedule
(`schedule.push({...})` in `calculatePaymentSchedule`). -/
structure ScheduleEntry where
  payment_number : ℕ
  payment_amount : JQ
  principal_amount : JQ
  interest_amount : JQ
  remaining_balance : JQ
  deriving DecidableEq, Repr

/-- The loop `for (let i = 1; i <= termMonths; i++)` of
`calculatePaymentSchedule`.  `i` is the current payment number, `bal` the
running `remainingBalance`, and the fuel `k` counts the remaining
iterations (`termMonths - i + 1`). -/
def scheduleFrom (mp : JQ) (r : ℚ) (n : ℕ) : ℕ → JQ → ℕ → List ScheduleEntry
  | _, _, 0 => []
  | i, bal, k + 1 =>
    let interestPayment := jmul bal (some r)
    let principalPayment := jsub mp interestPayment
    let bal2 := jsub bal principalPayment
    if i == n && jgt bal2 (some (1 / 100)) then
      -- last payment folds the residual balance into the principal
      let finalPrincipalPayment := jadd principalPayment bal2
      let finalPayment := jadd finalPrincipalPayment interestPayment
      { payment_number := i, payment_amount := jround2 finalPayment,
        principal_amount := jround2 finalPrincipalPayment,
        interest_amount := jround2 interestPayment,
        remaining_balance := some 0 } :: scheduleFrom mp r n (i + 1) (some 0) k
    else
      { payment_number := i, payment_amount := jround2 mp,
        principal_amount := jround2 principalPayment,
        interest_amount := jround2 interestPayment,
        remaining_balance := jround2 (jmax0 bal2) } :: scheduleFrom mp r n (i + 1) bal2 k

/-- Result object of `calculatePaymentSchedule`. -/
structure ScheduleResult where
  monthlyPayment : JQ
  totalAmount : JQ
  totalInterest : JQ
  schedule : List ScheduleEntry
  deriving DecidableEq, Repr

/-- `calculatePaymentSchedule({principal, interestRate, termMonths, ...})`.
The monthly payment is the amortization formula
`P * (r(1+r)^n) / ((1+r)^n - 1)`; there is no special case for
`interestRate = 0`, where the formula is `0/0`. -/
def calculatePaymentSchedule (principal interestRate : ℚ) (termMonths : ℕ) :
    ScheduleResult :=
  let monthlyRate := interestRate / 100 / 12
  let monthlyPayment :=
    jdiv (some (principal * (monthlyRate * (1 + monthlyRate) ^ termMonths)))
         (some ((1 + monthlyRate) ^ termMonths - 1))
  let schedule := scheduleFrom monthlyPayment monthlyRate termMonths 1 (some principal) termMonths
  { monthlyPayment := jround2 monthlyPayment,
    totalAmount := jround2 (List.foldl jadd (some 0) (schedule.map (fun e => e.payment_amount))),
    totalInterest := jround2 (List.foldl jadd (some 0) (schedule.map (fun e => e.interest_amount))),
    schedule := schedule }

/-! ## Approval chain builder

`createApprovalWorkflow` (`src/services/loanService.js`, lines 646–670)
materializes the approval chain when an application is submitted
(`submitLoanApplication`, line 365).  `getRequiredRoleForLevel` is the
level/amount table of the loan-approval service, used by escalation. -/

/-- The `approvalLevels` list built by `createApprovalWorkflow(client,
applicationId, amount)`.  Note: the source has no fourth branch — every
amount above 500,000 falls into the `else`, which stops at level 3
(`finance_manager`). -/
def createApprovalWorkflow (amount : ℚ) : List (ℕ × String) :=
  if amount ≤ 100000 then
    [(1, "loan_officer")]
  else if amount ≤ 500000 then
    [(1, "loan_officer"), (2, "branch_manager")]
  else
    [(1, "loan_officer"), (2, "branch_manager"), (3, "finance_manager")]

/-- `getRequiredRoleForLevel(level, amount)` of the loan-approval service
(`null` becomes `none`). -/
def getRequiredRoleForLevel (level : ℕ) (amount : ℚ) : Option String :=
  if amount ≤ 100000 then
    match level with
    | 1 => some "loan_officer"
    | _ => none
  else if amount ≤ 500000 then
    match level with
    | 1 => some "loan_officer"
    | 2 => some "branch_manager"
    | _ => none
  else if amount ≤ 5000000 then
    match level with
    | 1 => some "loan_officer"
    | 2 => some "branch_manager"
    | 3 => some "finance_manager"
    | _ => none
  else
    match level with
    | 1 => some "loan_officer"
    | 2 => some "branch_manager"
    | 3 => some "finance_manager"
    | 4 => some "ceo"
    | _ => none

/-- **C1.**  The chain materialized at submission follows the claimed table
on the first three rows, but for amounts above 5,000,000 it produces only
levels 1–3 ending with `finance_manager` — there is no `ceo` level 4 —
while the same repository's level table (`getRequiredRoleForLevel`) does
assign `ceo` to level 4 for such amounts.  At amount 5,000,001 the claimed
chain `[1,2,3,4]` ending `ceo` is not what `createApprovalWorkflow`
builds. -/
theorem createApprovalWorkflow_missing_ceo_level :
    createApprovalWorkflow 100000 = [(1, "loan_officer")] ∧
    createApprovalWorkflow 500000 = [(1, "loan_officer"), (2, "branch_manager")] ∧
    createApprovalWorkflow 5000000 =
      [(1, "loan_officer"), (2, "branch_manager"), (3, "finance_manager")] ∧
    createApprovalWorkflow 5000001 =
      [(1, "loan_officer"), (2, "branch_manager"), (3, "finance_manager")] ∧
    createApprovalWorkflow 5000001 ≠
      [(1, "loan_officer"), (2, "branch_manager"), (3, "finance_manager"), (4, "ceo")] ∧
    getRequiredRoleForLevel 4 5000001 = some "ceo" := by
  refine ⟨?_, ?_, ?_, ?_, ?_, ?_⟩ <;> decide

/-! ### NaN propagation lemmas for the schedule loop -/

lemma jadd_none_left (x : JQ) : jadd none x = none := by cases x <;> rfl

lemma jadd_none_right (x : JQ) : jadd x none = none := by cases x <;> rfl

lemma jsub_none_left (x : JQ) : jsub none x = none := by cases x <;> rfl

lemma jsub_none_right (x : JQ) : jsub x none = none := by cases x <;> rfl

lemma jgt_none_left (y : JQ) : jgt none y = false := by cases y <;> rfl

lemma foldl_jadd_none (l : List JQ) : List.foldl jadd none l = none := by
  induction l with
  | nil => rfl
  | cons x xs ih => simp only [List.foldl_cons, jadd_none_left, ih]

/-- Once the periodic payment is non-finite, every entry the loop produces
has a non-finite payment, principal and remaining balance. -/
lemma scheduleFrom_nan (r : ℚ) (n : ℕ) : ∀ (k i : ℕ) (bal : JQ),
    (scheduleFrom none r n i bal k).length = k ∧
    (scheduleFrom none r n i bal k).map (fun e => e.payment_amount) =
      List.replicate k none ∧
    ∀ e ∈ scheduleFrom none r n i bal k,
      e.payment_amount = none ∧ e.principal_amount = none ∧
      e.remaining_balance = none := by
  intro k
  induction k with
  | zero => intro i bal; simp [scheduleFrom]
  | succ k ih =>
    intro i bal
    obtain ⟨ih1, ih2, ih3⟩ := ih (i + 1) none
    simp only [scheduleFrom, jsub_none_left, jsub_none_right, jgt_none_left,
      Bool.and_false, Bool.false_eq_true, if_false, jround2, jmax0]
    refine ⟨by simp [ih1], by simp [ih2, List.replicate_succ], ?_⟩
    intro e he
    rcases List.mem_cons.1 he with h | h
    · subst h; exact ⟨rfl, rfl, rfl⟩
    · exact ih3 e h

/-- With rate 0 the amortization denominator `(1+0)^n - 1` is `0`, the
payment is `0/0` (non-finite), and the whole schedule is non-finite. -/
lemma calculatePaymentSchedule_zero_rate (P : ℚ) (n : ℕ) (hn : n ≠ 0) :
    (calculatePaymentSchedule P 0 n).monthlyPayment = none ∧
    (calculatePaymentSchedule P 0 n).totalAmount = none ∧
    (calculatePaymentSchedule P 0 n).schedule.length = n ∧
    ∀ e ∈ (calculatePaymentSchedule P 0 n).schedule,
      e.payment_amount = none ∧ e.principal_amount = none ∧
      e.remaining_balance = none := by
  have hden : ((1 : ℚ) + 0 / 100 / 12) ^ n - 1 = 0 := by norm_num
  have hmp : jdiv (some (P * (0 / 100 / 12 * (1 + 0 / 100 / 12) ^ n)))
      (some ((1 + (0 : ℚ) / 100 / 12) ^ n - 1)) = none := by
    rw [hden]; simp [jdiv]
  obtain ⟨h1, h2, h3⟩ := scheduleFrom_nan (0 / 100 / 12) n n 1 (some P)
  simp only [calculatePaymentSchedule, hmp]
  refine ⟨rfl, ?_, h1, h3⟩
  rw [h2]
  cases n with
  | zero => exact absurd rfl hn
  | succ m => simp [List.replicate_succ, jadd_none_right, foldl_jadd_none, jround2]

/-- **C2.**  There is no special case for rate 0: at principal 1200,
rate 0, term 12 the amortization formula is `0/0`, the periodic payment is
non-finite (NaN), and every schedule entry's payment, principal and
remaining balance are non-finite — instead of the claimed 12 straight-line
installments of principal 100 with zero interest. -/
theorem zero_rate_propagates_nan :
    (calculatePaymentSchedule 1200 0 12).monthlyPayment = none ∧
    (calculatePaymentSchedule 1200 0 12).totalAmount = none ∧
    (calculatePaymentSchedule 1200 0 12).schedule.length = 12 ∧
    (∀ e ∈ (calculatePaymentSchedule 1200 0 12).schedule,
      e.payment_amount = none ∧ e.principal_amount = none ∧
      e.remaining_balance = none) ∧
    ¬ (∀ e ∈ (calculatePaymentSchedule 1200 0 12).schedule,
        e.principal_amount = some 100 ∧ e.interest_amount = some 0) := by
  obtain ⟨h1, h2, h3, h4⟩ :=
    calculatePaymentSchedule_zero_rate 1200 12 (by norm_num)
  refine ⟨h1, h2, h3, h4, ?_⟩
  intro hcl
  have hne : (calculatePaymentSchedule 1200 0 12).schedule ≠ [] := by
    intro h; rw [h] at h3; simp at h3
  obtain ⟨e, he⟩ := List.exists_mem_of_ne_nil _ hne
  have := (hcl e he).1
  have := (h4 e he).2.1
  simp_all

/-! ## Risk scorer (risk-assessment service)

The nine `assess*` scorers, the weighted overall score, the bucketing into
a risk level, and the orchestration of `performRiskAssessment`.  The two
`Math.random()`-based placeholder scores are modelled with an explicit
random-sample parameter.  The persisted fields not referenced by any claim
(recommendation texts, audit entries, timestamps) are omitted. -/

/-- `financialHistory.credit_history`. -/
structure CreditHistory where
  successful_loans : ℕ
  defaulted_loans : ℕ
  late_payments : ℕ
  deriving DecidableEq, Repr

/-- `financialHistory.payment_history`. -/
structure PaymentHistory where
  total_payments : ℕ
  on_time_payments : ℕ
  late_payments : ℕ
  deriving DecidableEq, Repr

/-- The financial-history snapshot consumed by the scorers (`null` history
becomes `none`). -/
structure FinancialHistory where
  credit_history : Option CreditHistory
  payment_history : Option PaymentHistory
  deriving DecidableEq, Repr

/-- The application + customer snapshot loaded by `performRiskAssessment`.
Nullable columns are `Option`s (a JavaScript empty string for a guarantor
field is falsy like `null` and is modelled as `none`). -/
structure RiskAppSnapshot where
  existing_debts : Option ℚ
  monthly_income : ℚ
  employment_status : String
  collateral_type : Option String
  collateral_value : Option ℚ
  requested_amount : ℚ
  guarantor_name : Option String
  guarantor_phone : Option String
  kyc_status : String
  deriving DecidableEq, Repr

/-- `assessCreditScore(creditHistory)`: base 50, +10 per successful loan
capped at +30, −20 per defaulted loan, −5 per late payment capped at −25,
clamped to [0, 100]; no history ⇒ 50. -/
def assessCreditScore : Option CreditHistory → ℚ
  | none => 50
  | some ch =>
    let score : ℚ := 50
    let score := if ch.successful_loans > 0 then
        score + min ((ch.successful_loans : ℚ) * 10) 30 else score
    let score := if ch.defaulted_loans > 0 then
        score - (ch.defaulted_loans : ℚ) * 20 else score
    let score := if ch.late_payments > 0 then
        score - min ((ch.late_payments : ℚ) * 5) 25 else score
    max 0 (min 100 score)

/-- `assessPaymentHistory(paymentHistory)`. -/
def assessPaymentHistory : Option PaymentHistory → ℚ
  | none => 60
  | some ph =>
    let score : ℚ := 60
    let score := if ph.total_payments > 0 then
        min 100 (20 + ((ph.on_time_payments : ℚ) / (ph.total_payments : ℚ) * 100) * 0.8)
      else score
    max 0 (min 100 score)

/-- `assessExistingLoans(existingDebts, monthlyIncome)`; `!existingDebts`
covers both `null` and `0`.  (For `monthlyIncome = 0` the JavaScript ratio
is non-finite and every branch test fails; no claim touches that input.) -/
def assessExistingLoans (existingDebts : Option ℚ) (monthlyIncome : ℚ) : ℚ :=
  if existingDebts.getD 0 = 0 then 100
  else
    let debtRat := existingDebts.getD 0 / monthlyIncome * 100
    if debtRat ≤ 20 then 100
    else if debtRat ≤ 40 then 80
    else if debtRat ≤ 60 then 60
    else if debtRat ≤ 80 then 40
    else 20

/-- `assessIncomeStability(employmentStatus, monthlyIncome)`. -/
def assessIncomeStability (employmentStatus : String) (monthlyIncome : ℚ) : ℚ :=
  let score : ℚ :=
    if employmentStatus = "employed" then 85
    else if employmentStatus = "self_employed" then 70
    else if employmentStatus = "retired" then 60
    else if employmentStatus = "unemployed" then 20
    else if employmentStatus = "student" then 30
    else 40
  let score :=
    if monthlyIncome ≥ 100000 then score + 10
    else if monthlyIncome ≥ 50000 then score + 5
    else if monthlyIncome < 20000 then score - 10
    else score
  max 0 (min 100 score)

/-- `assessDebtToIncomeRatio(existingDebts, monthlyIncome)`; the source
computes `(existingDebts || 0) / monthlyIncome * 100`.  (For
`monthlyIncome = 0` the JavaScript ratio is non-finite, every branch test
fails and the result is 20; no claim touches that input.) -/
def assessDebtToIncomeRatio (existingDebts : Option ℚ) (monthlyIncome : ℚ) : ℚ :=
  let dtiRat := existingDebts.getD 0 / monthlyIncome * 100
  if dtiRat ≤ 15 then 100
  else if dtiRat ≤ 25 then 90
  else if dtiRat ≤ 35 then 75
  else if dtiRat ≤ 45 then 60
  else if dtiRat ≤ 55 then 40
  else 20

/-- `assessEmploymentHistory(employmentStatus)`. -/
def assessEmploymentHistory (employmentStatus : String) : ℚ :=
  if employmentStatus = "employed" then 90
  else if employmentStatus = "self_employed" then 75
  else if employmentStatus = "retired" then 70
  else if employmentStatus = "unemployed" then 10
  else if employmentStatus = "student" then 40
  else 50

/-- `assessCollateralValue(collateralType, collateralValue, loanAmount)`. -/
def assessCollateralValue (collateralType : Option String)
    (collateralValue : Option ℚ) (loanAmount : ℚ) : ℚ :=
  match collateralType with
  | none => 20
  | some t =>
    if t = "none" then 20
    else if collateralValue.getD 0 = 0 then 30
    else
      let collateralRat := collateralValue.getD 0 / loanAmount * 100
      let typeMultiplier : ℚ :=
        if t = "property" then 1.2
        else if t = "fixed_deposit" then 1.1
        else if t = "gold" then 1
        else if t = "vehicle" then 0.9
        else if t = "business_assets" then 0.8
        else if t = "guarantee" then 0.7
        else 0.6
      let score : ℚ :=
        if collateralRat ≥ 150 then 100
        else if collateralRat ≥ 120 then 90
        else if collateralRat ≥ 100 then 80
        else if collateralRat ≥ 80 then 70
        else if collateralRat ≥ 60 then 60
        else 40
      min 100 (score * typeMultiplier)

/-- `assessGuarantorStrength(guarantorName, guarantorPhone)`. -/
def assessGuarantorStrength (guarantorName guarantorPhone : Option String) : ℚ :=
  if guarantorName = none ∨ guarantorPhone = none then 40 else 70

/-- `assessKYCCompleteness(kycStatus, kycApprovedAt)` (the date argument is
unused in the source). -/
def assessKYCCompleteness (kycStatus : String) : ℚ :=
  if kycStatus = "approved" then 100
  else if kycStatus = "pending" then 50
  else if kycStatus = "rejected" then 0
  else 20

/-- `calculateRiskFactorScores(application, financialHistory)`: the factor
map, in the source's insertion order. -/
def calculateRiskFactorScores (app : RiskAppSnapshot) (fh : FinancialHistory) :
    List (String × ℚ) :=
  [("credit_score", assessCreditScore fh.credit_history),
   ("payment_history", assessPaymentHistory fh.payment_history),
   ("existing_loans", assessExistingLoans app.existing_debts app.monthly_income),
   ("income_stability", assessIncomeStability app.employment_status app.monthly_income),
   ("debt_to_income_ratio", assessDebtToIncomeRatio app.existing_debts app.monthly_income),
   ("employment_history", assessEmploymentHistory app.employment_status),
   ("collateral_value", assessCollateralValue app.collateral_type app.collateral_value app.requested_amount),
   ("guarantor_strength", assessGuarantorStrength app.guarantor_name app.guarantor_phone),
   ("kyc_completeness", assessKYCCompleteness app.kyc_status)]

/-- The weight table `this.riskFactors` (weight of each known factor key). -/
def riskFactorWeight : String → Option ℚ
  | "credit_score" => some 0.25
  | "payment_history" => some 0.20
  | "existing_loans" => some 0.15
  | "income_stability" => some 0.15
  | "debt_to_income_ratio" => some 0.10
  | "employment_history" => some 0.05
  | "collateral_value" => some 0.05
  | "guarantor_strength" => some 0.03
  | "kyc_completeness" => some 0.02
  | _ => none

/-- `calculateOverallRiskScore(riskFactorScores)`: weighted average over
the factors present in the weight table, rounded; 50 when the total weight
is zero. -/
def calculateOverallRiskScore (riskFactorScores : List (String × ℚ)) : ℤ :=
  let totals := riskFactorScores.foldl
    (fun (acc : ℚ × ℚ) p =>
      match riskFactorWeight p.1 with
      | some w => (acc.1 + p.2 * w, acc.2 + w)
      | none => acc)
    (0, 0)
  if totals.2 > 0 then round (totals.1 / totals.2) else 50

/-- `determineRiskLevel(score)`. -/
def determineRiskLevel (score : ℚ) : String :=
  if score ≥ 90 then "very_low"
  else if score ≥ 75 then "low"
  else if score ≥ 60 then "medium"
  else if score ≥ 40 then "high"
  else "very_high"

/-- `calculateFraudScore(application)` (deterministic). -/
def calculateFraudScore (app : RiskAppSnapshot) : ℚ :=
  let fraudScore : ℚ := 0
  let fraudScore := if app.monthly_income > app.requested_amount * 2 then
      fraudScore + 10 else fraudScore
  let fraudScore := if app.requested_amount > 1000000 ∧ app.employment_status = "unemployed" then
      fraudScore + 30 else fraudScore
  min 100 fraudScore

/-- `calculateBehavioralScore(application)`:
`Math.floor(Math.random() * 40) + 60`, with the `Math.random()` sample an
explicit parameter. -/
def calculateBehavioralScore (rand : ℚ) : ℤ := ⌊rand * 40⌋ + 60

/-- `calculateMarketRiskScore(application)`:
`Math.floor(Math.random() * 30) + 50`, with the `Math.random()` sample an
explicit parameter. -/
def calculateMarketRiskScore (rand : ℚ) : ℤ := ⌊rand * 30⌋ + 50

/-- The `ai_insights` object of `generateAIInsights` (the fixed
recommendation strings are omitted). -/
structure AIInsights where
  fraud_score : ℚ
  behavioral_score : ℤ
  market_risk_score : ℤ
  deriving DecidableEq, Repr

/-- `generateAIInsights(application, riskFactorScores)`; `rand1`, `rand2`
are the two `Math.random()` samples it consumes. -/
def generateAIInsights (app : RiskAppSnapshot) (rand1 rand2 : ℚ) : AIInsights :=
  { fraud_score := calculateFraudScore app,
    behavioral_score := calculateBehavioralScore rand1,
    market_risk_score := calculateMarketRiskScore rand2 }

/-- The persisted `RiskAssessment` fields the claims refer to. -/
structure RiskAssessmentRecord where
  overall_score : ℤ
  risk_level : String
  risk_factors : List (String × ℚ)
  ai_insights : AIInsights
  deriving DecidableEq, Repr

/-- The computational core of `performRiskAssessment(applicationId,
assessedBy)` once the application + customer snapshot and the financial
history have been loaded: factor scores, overall score, risk level, and
AI insights, as assembled into the persisted assessment. -/
def performRiskAssessment (app : RiskAppSnapshot) (fh : FinancialHistory)
    (rand1 rand2 : ℚ) : RiskAssessmentRecord :=
  let riskFactorScores := calculateRiskFactorScores app fh
  let overallScore := calculateOverallRiskScore riskFactorScores
  let riskLevel := determineRiskLevel (overallScore : ℚ)
  { overall_score := overallScore,
    risk_level := riskLevel,
    risk_factors := riskFactorScores,
    ai_insights := generateAIInsights app rand1 rand2 }

/-- **C8.**  The deterministic scoring rules: no credit history scores 50;
zero debts with positive income score 100 on debt-to-income; with all nine
factors supplied the overall score is the rounded weighted average with
weights summing to 1; and the risk-level buckets are ≥90 `very_low`,
≥75 `low`, ≥60 `medium`, ≥40 `high`, else `very_high`. -/
theorem riskScorer_documented_rules :
    assessCreditScore none = 50 ∧
    (∀ income : ℚ, 0 < income → assessDebtToIncomeRatio (some 0) income = 100) ∧
    ((riskFactorWeight "credit_score").getD 0 + (riskFactorWeight "payment_history").getD 0 +
      (riskFactorWeight "existing_loans").getD 0 + (riskFactorWeight "income_stability").getD 0 +
      (riskFactorWeight "debt_to_income_ratio").getD 0 + (riskFactorWeight "employment_history").getD 0 +
      (riskFactorWeight "collateral_value").getD 0 + (riskFactorWeight "guarantor_strength").getD 0 +
      (riskFactorWeight "kyc_completeness").getD 0 = 1) ∧
    (∀ s1 s2 s3 s4 s5 s6 s7 s8 s9 : ℚ,
      calculateOverallRiskScore
        [("credit_score", s1), ("payment_history", s2), ("existing_loans", s3),
         ("income_stability", s4), ("debt_to_income_ratio", s5), ("employment_history", s6),
         ("collateral_value", s7), ("guarantor_strength", s8), ("kyc_completeness", s9)] =
      round (s1 * 0.25 + s2 * 0.20 + s3 * 0.15 + s4 * 0.15 + s5 * 0.10 +
             s6 * 0.05 + s7 * 0.05 + s8 * 0.03 + s9 * 0.02)) ∧
    (∀ sc : ℚ,
      (sc ≥ 90 → determineRiskLevel sc = "very_low") ∧
      (75 ≤ sc → sc < 90 → determineRiskLevel sc = "low") ∧
      (60 ≤ sc → sc < 75 → determineRiskLevel sc = "medium") ∧
      (40 ≤ sc → sc < 60 → determineRiskLevel sc = "high") ∧
      (sc < 40 → determineRiskLevel sc = "very_high")) := by
  refine ⟨by norm_num [assessCreditScore],
    fun income _ => by norm_num [assessDebtToIncomeRatio],
    by norm_num [riskFactorWeight], ?_, ?_⟩
  · intro s1 s2 s3 s4 s5 s6 s7 s8 s9
    have h : ((0:ℚ) + 0.25 + 0.20 + 0.15 + 0.15 + 0.10 + 0.05 + 0.05 + 0.03 + 0.02) = 1 := by
      norm_num
    simp only [calculateOverallRiskScore, List.foldl_cons, List.foldl_nil, riskFactorWeight]
    rw [if_pos (by norm_num)]
    congr 1
    field_simp
    ring
  · intro sc
    refine ⟨fun h => ?_, fun h1 h2 => ?_, fun h1 h2 => ?_, fun h1 h2 => ?_, fun h => ?_⟩ <;>
      simp only [determineRiskLevel] <;>
      [rw [if_pos h];
       rw [if_neg (by linarith), if_pos h1];
       rw [if_neg (by linarith), if_neg (by linarith), if_pos h1];
       rw [if_neg (by linarith), if_neg (by linarith), if_neg (by linarith), if_pos h1];
       rw [if_neg (by linarith), if_neg (by linarith), if_neg (by linarith), if_neg (by linarith)]]

/-- **C8 witness.**  The rules evaluated at concrete inputs: zero debts
with income 50,000 score 100 on debt-to-income, a full nine-factor score
vector reproduces the rounded weighted average, and 73 lands in the
`medium` bucket. -/
theorem riskScorer_documented_rules_witness :
    assessCreditScore none = 50 ∧
    ((0 : ℚ) < 50000 ∧ assessDebtToIncomeRatio (some 0) 50000 = 100) ∧
    calculateOverallRiskScore
      [("credit_score", 50), ("payment_history", 60), ("existing_loans", 100),
       ("income_stability", 90), ("debt_to_income_ratio", 100), ("employment_history", 90),
       ("collateral_value", 20), ("guarantor_strength", 40), ("kyc_completeness", 100)] =
      round ((50 : ℚ) * 0.25 + 60 * 0.20 + 100 * 0.15 + 90 * 0.15 + 100 * 0.10 +
             90 * 0.05 + 20 * 0.05 + 40 * 0.03 + 100 * 0.02) ∧
    (60 : ℚ) ≤ 73 ∧ (73 : ℚ) < 75 ∧ determineRiskLevel 73 = "medium" :=
  ⟨riskScorer_documented_rules.1,
   ⟨by norm_num, riskScorer_documented_rules.2.1 50000 (by norm_num)⟩,
   riskScorer_documented_rules.2.2.2.1 50 60 100 90 100 90 20 40 100,
   by norm_num, by norm_num,
   (riskScorer_documented_rules.2.2.2.2 73).2.2.1 (by norm_num) (by norm_num)⟩

/-- **C10.**  The factor scores, overall score and risk level of
`performRiskAssessment` do not depend on the `Math.random()` samples: two
runs over the same application and financial-history snapshot agree on
them, and the random samples reach only the `ai_insights` placeholder
scores. -/
theorem performRiskAssessment_deterministic (app : RiskAppSnapshot)
    (fh : FinancialHistory) (r1 r2 r3 r4 : ℚ) :
    (performRiskAssessment app fh r1 r2).risk_factors =
      (performRiskAssessment app fh r3 r4).risk_factors ∧
    (performRiskAssessment app fh r1 r2).overall_score =
      (performRiskAssessment app fh r3 r4).overall_score ∧
    (performRiskAssessment app fh r1 r2).risk_level =
      (performRiskAssessment app fh r3 r4).risk_level ∧
    (performRiskAssessment app fh r1 r2).ai_insights.behavioral_score =
      calculateBehavioralScore r1 ∧
    (performRiskAssessment app fh r1 r2).ai_insights.market_risk_score =
      calculateMarketRiskScore r2 ∧
    (performRiskAssessment app fh r1 r2).ai_insights.fraud_score =
      calculateFraudScore app := by
  exact ⟨rfl, rfl, rfl, rfl, rfl, rfl⟩

/-! ## Approval workflow engine (loan-approval service)

The persistence collaborator is modelled as in-memory lists of rows.  SQL
`SELECT ... rows[0]` becomes `List.find?`, `UPDATE ... WHERE` becomes a
`List.map` that rewrites the matching rows in place, and `INSERT` appends.
A thrown error inside the `transaction` callback rolls every change back,
so a failing run is modelled as `Except.error` carrying no new state
(`runProcessApproval` below makes the rollback explicit).  Timestamp
columns are modelled as `Bool` stamped-flags; audit rows and notification
side effects touch no modelled state and are omitted. -/

/-- A row of `users` (only the columns the engine reads). -/
structure User where
  id : ℕ
  role : String
  deriving DecidableEq, Repr

/-- A row of `loan_applications` (only the columns the engine touches). -/
structure Application where
  id : ℕ
  status : String
  requested_amount : ℚ
  approved_at : Bool
  rejected_at : Bool
  rejection_reason : Option String
  deriving DecidableEq, Repr

/-- A row of `loan_approvals`. -/
structure ApprovalRecord where
  id : ℕ
  loan_application_id : ℕ
  approval_level : ℕ
  required_role : String
  status : String
  is_required : Bool
  approved_by : Option ℕ
  approved_at : Bool
  comments : Option String
  rejection_reason : Option String
  deriving DecidableEq, Repr

/-- The database state the engine operates on. -/
structure DB where
  applications : List Application
  approvals : List ApprovalRecord
  users : List User
  deriving DecidableEq, Repr

/-- The `approvalData` argument of `processApproval`. -/
structure ApprovalData where
  decision : String
  comments : Option String
  rejection_reason : Option String
  deriving DecidableEq, Repr

/-- The result object of `processApproval` (the `next_steps` strings are
derived from `application_status` alone and are omitted). -/
structure ApprovalResult where
  approval : ApprovalRecord
  application_status : String
  workflow_complete : Bool
  deriving DecidableEq, Repr

/-- `SELECT * FROM loan_applications WHERE id = $1` (first row). -/
def findApplication (db : DB) (applicationId : ℕ) : Option Application :=
  db.applications.find? (fun a => a.id == applicationId)

/-- `SELECT * FROM loan_approvals WHERE loan_application_id = $1 AND
approval_level = $2 AND status = 'pending'` (first row). -/
def findPendingApproval (db : DB) (applicationId approvalLevel : ℕ) :
    Option ApprovalRecord :=
  db.approvals.find? (fun r =>
    r.loan_application_id == applicationId && r.approval_level == approvalLevel &&
      r.status == "pending")

/-- The fixed `roleHierarchy` table of `validateApprovalAuthority`. -/
def roleHierarchy : String → Option ℕ
  | "loan_officer" => some 1
  | "branch_manager" => some 2
  | "finance_manager" => some 3
  | "ceo" => some 4
  | "admin" => some 5
  | "super_admin" => some 6
  | _ => none

/-- `validateApprovalAuthority(userId, requiredRole, loanAmount)`: the
actor's rank (default 0) must reach the required rank (default 999), and
amounts above 5,000,000 additionally require the actor's role to be `ceo`,
`admin` or `super_admin`. -/
def validateApprovalAuthority (db : DB) (userId : ℕ) (requiredRole : String)
    (loanAmount : ℚ) : Except String Unit :=
  match db.users.find? (fun u => u.id == userId) with
  | none => Except.error "User not found"
  | some user =>
    let userLevel := (roleHierarchy user.role).getD 0
    let requiredLevel := (roleHierarchy requiredRole).getD 999
    if userLevel < requiredLevel then
      Except.error "Insufficient authority for this approval level"
    else if loanAmount > 5000000 ∧ user.role ≠ "ceo" ∧
        ¬ (user.role = "admin" ∨ user.role = "super_admin") then
      Except.error "CEO approval required for loans above 5,000,000"
    else
      Except.ok ()

/-- The `UPDATE loan_approvals SET status = $1, approved_by = $2,
approved_at = CURRENT_TIMESTAMP, comments = $3, rejection_reason = $4
WHERE id = $5` of `processApproval`, applied to a record row. -/
def decideRecord (ad : ApprovalData) (approvedBy : ℕ) (r : ApprovalRecord) :
    ApprovalRecord :=
  { r with status := ad.decision, approved_by := some approvedBy,
           approved_at := true, comments := ad.comments,
           rejection_reason := ad.rejection_reason }

/-- The same `UPDATE` over the whole table. -/
def updateApprovalRecord (db : DB) (recId : ℕ) (ad : ApprovalData)
    (approvedBy : ℕ) : DB :=
  { db with approvals := db.approvals.map (fun r =>
      if r.id == recId then decideRecord ad approvedBy r else r) }

/-- `SELECT COUNT(*) FROM loan_approvals WHERE loan_application_id = $1 AND
status = 'pending' AND is_required = true`. -/
def countPendingRequired (db : DB) (applicationId : ℕ) : ℕ :=
  (db.approvals.filter (fun r =>
    r.loan_application_id == applicationId && r.status == "pending" &&
      r.is_required)).length

/-- `UPDATE loan_applications SET ... WHERE id = $1`. -/
def updateApplications (db : DB) (applicationId : ℕ)
    (f : Application → Application) : DB :=
  { db with applications := db.applications.map (fun a =>
      if a.id == applicationId then f a else a) }

/-- `UPDATE loan_approvals SET status = 'cancelled' WHERE
loan_application_id = $1 AND status = 'pending'`. -/
def cancelPendingApprovals (db : DB) (applicationId : ℕ) : DB :=
  { db with approvals := db.approvals.map (fun r =>
      if r.loan_application_id == applicationId && r.status == "pending" then
        { r with status := "cancelled" }
      else r) }

/-- `processApproval(applicationId, approvalLevel, approvalData,
approvedBy)`: load and validate the application, find the pending record at
the level, validate authority, mark the record with the decision, then
branch on the decision string (any string other than `approved` /
`rejected` falls through both branches).  `workflow_complete` in the source
is `pendingCount === 0 && decision === 'approved'` with `pendingCount`
still `null` outside the approved branch. -/
def processApproval (db : DB) (applicationId approvalLevel : ℕ)
    (approvalData : ApprovalData) (approvedBy : ℕ) :
    Except String (DB × ApprovalResult) :=
  match findApplication db applicationId with
  | none => Except.error "Loan application not found"
  | some application =>
    if ¬ (application.status = "submitted" ∨ application.status = "under_review" ∨
        application.status = "pending_approval") then
      Except.error "Application is not in a reviewable status"
    else
      match findPendingApproval db applicationId approvalLevel with
      | none => Except.error "No pending approval found for this level"
      | some approval =>
        match validateApprovalAuthority db approvedBy approval.required_role
            application.requested_amount with
        | Except.error e => Except.error e
        | Except.ok _ =>
          let db1 := updateApprovalRecord db approval.id approvalData approvedBy
          let updatedApproval := decideRecord approvalData approvedBy approval
          if approvalData.decision = "approved" then
            let pendingCount := countPendingRequired db1 applicationId
            if pendingCount = 0 then
              let db2 := updateApplications db1 applicationId
                (fun a => { a with status := "approved", approved_at := true })
              let res : ApprovalResult :=
                { approval := updatedApproval, application_status := "approved",
                  workflow_complete := true }
              Except.ok (db2, res)
            else
              let db2 := updateApplications db1 applicationId
                (fun a => { a with status := "pending_approval" })
              let res : ApprovalResult :=
                { approval := updatedApproval, application_status := "pending_approval",
                  workflow_complete := false }
              Except.ok (db2, res)
          else if approvalData.decision = "rejected" then
            let db2 := updateApplications db1 applicationId
              (fun a =>
                { a with
                    status := "rejected"
                    rejected_at := true
                    rejection_reason := approvalData.rejection_reason })
            let db3 := cancelPendingApprovals db2 applicationId
            let res : ApprovalResult :=
              { approval := updatedApproval, application_status := "rejected",
                workflow_complete := false }
            Except.ok (db3, res)
          else
            let res : ApprovalResult :=
              { approval := updatedApproval, application_status := application.status,
                workflow_complete := false }
            Except.ok (db1, res)

/-- `processApproval` as run inside the `transaction` helper: a thrown
error performs `ROLLBACK`, leaving the database unchanged. -/
def runProcessApproval (db : DB) (applicationId approvalLevel : ℕ)
    (approvalData : ApprovalData) (approvedBy : ℕ) :
    DB × Except String ApprovalResult :=
  match processApproval db applicationId approvalLevel approvalData approvedBy with
  | Except.ok (db2, res) => (db2, Except.ok res)
  | Except.error e => (db, Except.error e)

/-- A fresh `SERIAL` id for an inserted approval row. -/
def freshApprovalId (db : DB) : ℕ :=
  (db.approvals.map (fun r => r.id)).foldl max 0 + 1

/-- The row built by the `INSERT INTO loan_approvals ... VALUES ($1, $2,
$3, 'pending', true, ...)` of `escalateApproval`. -/
def newEscalationRecord (db : DB) (applicationId nextLevel : ℕ)
    (nextRole : String) : ApprovalRecord :=
  { id := freshApprovalId db, loan_application_id := applicationId,
    approval_level := nextLevel, required_role := nextRole,
    status := "pending", is_required := true, approved_by := none,
    approved_at := false, comments := none, rejection_reason := none }

/-- The `UPDATE loan_approvals SET status = 'pending', is_required = true
WHERE id = $1` of `escalateApproval`, over the whole table. -/
def resetApprovalRow (recId : ℕ) (l : List ApprovalRecord) :
    List ApprovalRecord :=
  l.map (fun r =>
    if r.id == recId then { r with status := "pending", is_required := true }
    else r)

/-- The `UPDATE loan_approvals SET status = 'escalated', comments = $1
WHERE loan_application_id = $2 AND approval_level = $3` of
`escalateApproval`, over the whole table. -/
def markEscalated (applicationId currentLevel : ℕ) (reason : String)
    (l : List ApprovalRecord) : List ApprovalRecord :=
  l.map (fun r =>
    if r.loan_application_id == applicationId && r.approval_level == currentLevel then
      { r with status := "escalated", comments := some reason }
    else r)

/-- The result object of `escalateApproval` (the full escalation row it
also returns is recoverable from the state and is omitted). -/
structure EscalationResult where
  escalated_to_level : ℕ
  required_role : String
  reason : String
  deriving DecidableEq, Repr

/-- `escalateApproval(applicationId, currentLevel, reason, escalatedBy)`:
compute the next level's role from the amount table (fail if none); reset
an existing record at the next level to `pending`/required, otherwise
insert a fresh required `pending` record; finally mark every record at the
current level `escalated` with the reason as comment. -/
def escalateApproval (db : DB) (applicationId currentLevel : ℕ)
    (reason : String) : Except String (DB × EscalationResult) :=
  match findApplication db applicationId with
  | none => Except.error "Loan application not found"
  | some application =>
    let nextLevel := currentLevel + 1
    match getRequiredRoleForLevel nextLevel application.requested_amount with
    | none => Except.error "Cannot escalate beyond highest approval level"
    | some nextRole =>
      let db1 : DB :=
        match db.approvals.find? (fun r =>
            r.loan_application_id == applicationId && r.approval_level == nextLevel) with
        | none =>
          { db with approvals := db.approvals ++
              [newEscalationRecord db applicationId nextLevel nextRole] }
        | some existing =>
          { db with approvals := resetApprovalRow existing.id db.approvals }
      let db2 : DB :=
        { db1 with approvals := markEscalated applicationId currentLevel reason db1.approvals }
      let res : EscalationResult :=
        { escalated_to_level := nextLevel, required_role := nextRole,
          reason := reason }
      Except.ok (db2, res)

/-- One element of the `applications` array passed to `bulkApprove`. -/
structure BulkItem where
  application_id : ℕ
  approval_level : ℕ
  decision : String
  comments : Option String
  rejection_reason : Option String
  deriving DecidableEq, Repr

/-- The `results.summary` counters of `bulkApprove`. -/
structure BulkSummary where
  total : ℕ
  approved : ℕ
  rejected : ℕ
  failed : ℕ
  deriving DecidableEq, Repr

/-- The `results` object of `bulkApprove`. -/
structure BulkResults where
  successful : List (ℕ × ApprovalResult)
  failed : List (ℕ × String)
  summary : BulkSummary
  deriving DecidableEq, Repr

/-- One iteration of the `bulkApprove` loop: its own `processApproval`
transaction, a caught failure leaving the state as it was. -/
def bulkStep (approvedBy : ℕ) (acc : DB × BulkResults) (item : BulkItem) :
    DB × BulkResults :=
  match processApproval acc.1 item.application_id item.approval_level
      { decision := item.decision, comments := item.comments,
        rejection_reason := item.rejection_reason } approvedBy with
  | Except.ok (db2, r) =>
    (db2, { successful := acc.2.successful ++ [(item.application_id, r)],
            failed := acc.2.failed,
            summary := { acc.2.summary with
              approved := if item.decision = "approved" then
                  acc.2.summary.approved + 1 else acc.2.summary.approved,
              rejected := if item.decision = "approved" then
                  acc.2.summary.rejected else acc.2.summary.rejected + 1 } })
  | Except.error e =>
    (acc.1, { successful := acc.2.successful,
              failed := acc.2.failed ++ [(item.application_id, e)],
              summary := { acc.2.summary with
                failed := acc.2.summary.failed + 1 } })

/-- `bulkApprove(applications, approvedBy)`: fold the per-item loop over
the batch, starting from `summary.total = applications.length` and empty
success/failure lists. -/
def bulkApprove (db : DB) (items : List BulkItem) (approvedBy : ℕ) :
    DB × BulkResults :=
  items.foldl (bulkStep approvedBy)
    (db, { successful := [], failed := [],
           summary := { total := items.length, approved := 0, rejected := 0,
                        failed := 0 } })

/-! ### Workflow engine lemmas and claims -/

/-- An in-place row update that preserves the searched id commutes with
`find?` on that id. -/
lemma find?_map_update_id (l : List Application) (appId : ℕ)
    (f : Application → Application) (hf : ∀ a, (f a).id = a.id) :
    (l.map (fun a => if a.id == appId then f a else a)).find? (fun a => a.id == appId) =
      (l.find? (fun a => a.id == appId)).map f := by
  induction l with
  | nil => rfl
  | cons a t ih =>
    rw [List.map_cons]
    by_cases h : (a.id == appId) = true
    · have h2 : ((f a).id == appId) = true := by rw [hf a]; exact h
      rw [if_pos h, List.find?_cons, List.find?_cons, h2, h]
      rfl
    · have h3 : (a.id == appId) = false := by
        revert h; cases a.id == appId <;> simp
      rw [if_neg h, List.find?_cons, List.find?_cons, h3]
      exact ih

/-- `updateApplications` rewrites the searched application in place. -/
lemma findApplication_updateApplications (db : DB) (appId : ℕ)
    (f : Application → Application) (hf : ∀ a, (f a).id = a.id) :
    findApplication (updateApplications db appId f) appId =
      (findApplication db appId).map f :=
  find?_map_update_id db.applications appId f hf

/-- **C9.**  `processApproval` never validates the decision string: for any
decision other than `approved` / `rejected` (with the application
reviewable, a pending record at the level, and sufficient authority) the
call succeeds, writes the arbitrary string as the record's status, leaves
the applications table untouched, and reports `workflow_complete = false`
with the pre-existing application status. -/
theorem processApproval_arbitrary_decision
    (db : DB) (appId lvl actor : ℕ) (ad : ApprovalData)
    (app : Application) (rec : ApprovalRecord)
    (happ : findApplication db appId = some app)
    (hrev : app.status = "submitted" ∨ app.status = "under_review" ∨
      app.status = "pending_approval")
    (hrec : findPendingApproval db appId lvl = some rec)
    (hauth : validateApprovalAuthority db actor rec.required_role
      app.requested_amount = Except.ok ())
    (hd1 : ad.decision ≠ "approved") (hd2 : ad.decision ≠ "rejected") :
    processApproval db appId lvl ad actor =
      Except.ok (updateApprovalRecord db rec.id ad actor,
        { approval := decideRecord ad actor rec,
          application_status := app.status, workflow_complete := false }) ∧
    (updateApprovalRecord db rec.id ad actor).applications = db.applications ∧
    (decideRecord ad actor rec).status = ad.decision := by
  refine ⟨?_, rfl, rfl⟩
  simp only [processApproval, happ, hrec, hauth, if_neg (not_not_intro hrev),
    if_neg hd1, if_neg hd2]

def app9 : Application :=
  { id := 1, status := "submitted", requested_amount := 100000,
    approved_at := false, rejected_at := false, rejection_reason := none }

def rec9 : ApprovalRecord :=
  { id := 1, loan_application_id := 1, approval_level := 1,
    required_role := "loan_officer", status := "pending", is_required := true,
    approved_by := none, approved_at := false, comments := none,
    rejection_reason := none }

def db9 : DB :=
  { applications := [app9], approvals := [rec9],
    users := [{ id := 5, role := "loan_officer" }] }

def ad9 : ApprovalData :=
  { decision := "maybe", comments := none, rejection_reason := none }

/-- **C9 witness.**  A concrete run with the decision string `"maybe"`. -/
theorem processApproval_arbitrary_decision_witness :
    (findApplication db9 1 = some app9 ∧
      (app9.status = "submitted" ∨ app9.status = "under_review" ∨
        app9.status = "pending_approval") ∧
      findPendingApproval db9 1 1 = some rec9 ∧
      validateApprovalAuthority db9 5 rec9.required_role app9.requested_amount =
        Except.ok () ∧
      ad9.decision ≠ "approved" ∧ ad9.decision ≠ "rejected") ∧
    -- conclusion of the claim theorem at these inputs
    (processApproval db9 1 1 ad9 5 =
      Except.ok (updateApprovalRecord db9 rec9.id ad9 5,
        { approval := decideRecord ad9 5 rec9,
          application_status := app9.status, workflow_complete := false }) ∧
    (updateApprovalRecord db9 rec9.id ad9 5).applications = db9.applications ∧
    (decideRecord ad9 5 rec9).status = ad9.decision) :=
  ⟨⟨rfl, Or.inl rfl, rfl, rfl, by simp [ad9], by simp [ad9]⟩,
   processApproval_arbitrary_decision db9 1 1 5 ad9 app9 rec9 rfl (Or.inl rfl)
     rfl rfl (by simp [ad9]) (by simp [ad9])⟩

/-- **C4.**  When the actor's rank is below the record's required rank, or
the amount exceeds 5,000,000 and the actor ranks below `ceo`,
`processApproval` fails with an insufficient-authority error and — the
check running before any record update, inside a rolled-back transaction —
leaves the database unchanged. -/
theorem processApproval_insufficient_authority
    (db : DB) (appId lvl actor : ℕ) (ad : ApprovalData)
    (app : Application) (rec : ApprovalRecord) (user : User)
    (happ : findApplication db appId = some app)
    (hrev : app.status = "submitted" ∨ app.status = "under_review" ∨
      app.status = "pending_approval")
    (hrec : findPendingApproval db appId lvl = some rec)
    (huser : db.users.find? (fun u => u.id == actor) = some user)
    (hfail : (roleHierarchy user.role).getD 0 < (roleHierarchy rec.required_role).getD 999 ∨
      (app.requested_amount > 5000000 ∧ (roleHierarchy user.role).getD 0 < 4)) :
    ∃ e, processApproval db appId lvl ad actor = Except.error e ∧
      (e = "Insufficient authority for this approval level" ∨
        e = "CEO approval required for loans above 5,000,000") ∧
      runProcessApproval db appId lvl ad actor = (db, Except.error e) := by
  have hva : validateApprovalAuthority db actor rec.required_role app.requested_amount =
      Except.error "Insufficient authority for this approval level" ∨
      validateApprovalAuthority db actor rec.required_role app.requested_amount =
      Except.error "CEO approval required for loans above 5,000,000" := by
    by_cases hlt : (roleHierarchy user.role).getD 0 < (roleHierarchy rec.required_role).getD 999
    · left
      simp only [validateApprovalAuthority, huser, if_pos hlt]
    · right
      have h2 : app.requested_amount > 5000000 ∧ (roleHierarchy user.role).getD 0 < 4 :=
        hfail.resolve_left hlt
      have hceo : user.role ≠ "ceo" := by
        intro h; rw [h] at h2; simp [roleHierarchy] at h2
      have hadmin : ¬ (user.role = "admin" ∨ user.role = "super_admin") := by
        rintro (h | h) <;> rw [h] at h2 <;> simp [roleHierarchy] at h2
      simp only [validateApprovalAuthority, huser, if_neg hlt,
        if_pos (And.intro h2.1 (And.intro hceo hadmin))]
  rcases hva with h | h
  · refine ⟨"Insufficient authority for this approval level", ?_, Or.inl rfl, ?_⟩
    · simp only [processApproval, happ, hrec, h, if_neg (not_not_intro hrev)]
    · simp only [runProcessApproval, processApproval, happ, hrec, h,
        if_neg (not_not_intro hrev)]
  · refine ⟨"CEO approval required for loans above 5,000,000", ?_, Or.inr rfl, ?_⟩
    · simp only [processApproval, happ, hrec, h, if_neg (not_not_intro hrev)]
    · simp only [runProcessApproval, processApproval, happ, hrec, h,
        if_neg (not_not_intro hrev)]

def rec4 : ApprovalRecord :=
  { id := 1, loan_application_id := 1, approval_level := 1,
    required_role := "ceo", status := "pending", is_required := true,
    approved_by := none, approved_at := false, comments := none,
    rejection_reason := none }

def db4 : DB :=
  { applications := [app9], approvals := [rec4],
    users := [{ id := 7, role := "loan_officer" }] }

/-- **C4 witness.**  A `loan_officer` deciding a record that requires
`ceo`. -/
theorem processApproval_insufficient_authority_witness :
    (findApplication db4 1 = some app9 ∧
      (app9.status = "submitted" ∨ app9.status = "under_review" ∨
        app9.status = "pending_approval") ∧
      findPendingApproval db4 1 1 = some rec4 ∧
      db4.users.find? (fun u => u.id == 7) = some { id := 7, role := "loan_officer" } ∧
      ((roleHierarchy "loan_officer").getD 0 < (roleHierarchy rec4.required_role).getD 999 ∨
        (app9.requested_amount > 5000000 ∧ (roleHierarchy "loan_officer").getD 0 < 4))) ∧
    (∃ e, processApproval db4 1 1 ad9 7 = Except.error e ∧
      (e = "Insufficient authority for this approval level" ∨
        e = "CEO approval required for loans above 5,000,000") ∧
      runProcessApproval db4 1 1 ad9 7 = (db4, Except.error e)) :=
  ⟨⟨rfl, Or.inl rfl, rfl, rfl, Or.inl (by simp [roleHierarchy, rec4])⟩,
   processApproval_insufficient_authority db4 1 1 7 ad9 app9 rec4
     { id := 7, role := "loan_officer" } rfl (Or.inl rfl) rfl rfl
     (Or.inl (by simp [roleHierarchy, rec4]))⟩

/-- **C3.**  The decision branches of `processApproval`: on `approved`,
the application becomes `approved` (stamped) with the workflow reported
complete when no pending required record remains after the level is
marked, and `pending_approval` otherwise; on `rejected`, the application
becomes `rejected` (stamped, with the reason), every other still-pending
record is cancelled, and no pending record remains for the application. -/
theorem processApproval_decision_outcomes
    (db : DB) (appId lvl actor : ℕ) (ad : ApprovalData)
    (app : Application) (rec : ApprovalRecord)
    (happ : findApplication db appId = some app)
    (hrev : app.status = "submitted" ∨ app.status = "under_review" ∨
      app.status = "pending_approval")
    (hrec : findPendingApproval db appId lvl = some rec)
    (hauth : validateApprovalAuthority db actor rec.required_role
      app.requested_amount = Except.ok ()) :
    (ad.decision = "approved" →
      (countPendingRequired (updateApprovalRecord db rec.id ad actor) appId = 0 →
        ∃ db2 res, processApproval db appId lvl ad actor = Except.ok (db2, res) ∧
          res.application_status = "approved" ∧ res.workflow_complete = true ∧
          findApplication db2 appId =
            some { app with status := "approved", approved_at := true }) ∧
      (countPendingRequired (updateApprovalRecord db rec.id ad actor) appId ≠ 0 →
        ∃ db2 res, processApproval db appId lvl ad actor = Except.ok (db2, res) ∧
          res.application_status = "pending_approval" ∧ res.workflow_complete = false ∧
          findApplication db2 appId = some { app with status := "pending_approval" })) ∧
    (ad.decision = "rejected" →
      ∃ db2 res, processApproval db appId lvl ad actor = Except.ok (db2, res) ∧
        res.application_status = "rejected" ∧ res.workflow_complete = false ∧
        findApplication db2 appId =
          some { app with
                   status := "rejected"
                   rejected_at := true
                   rejection_reason := ad.rejection_reason } ∧
        (∀ r ∈ db2.approvals, r.loan_application_id = appId → r.status ≠ "pending") ∧
        (∀ r ∈ db.approvals, r.loan_application_id = appId → r.status = "pending" →
          r.id ≠ rec.id → { r with status := "cancelled" } ∈ db2.approvals)) := by
  constructor
  · intro hdec
    constructor
    · intro hcount
      refine ⟨updateApplications (updateApprovalRecord db rec.id ad actor) appId
          (fun a => { a with status := "approved", approved_at := true }),
        { approval := decideRecord ad actor rec, application_status := "approved",
          workflow_complete := true }, ?_, rfl, rfl, ?_⟩
      · simp only [processApproval, happ, hrec, hauth,
          if_neg (not_not_intro hrev), if_pos hdec, if_pos hcount]
      · rw [findApplication_updateApplications (updateApprovalRecord db rec.id ad actor)
          appId (fun a => { a with status := "approved", approved_at := true })
          (fun a => rfl)]
        have : findApplication (updateApprovalRecord db rec.id ad actor) appId =
            findApplication db appId := rfl
        rw [this, happ]; rfl
    · intro hcount
      refine ⟨updateApplications (updateApprovalRecord db rec.id ad actor) appId
          (fun a => { a with status := "pending_approval" }),
        { approval := decideRecord ad actor rec,
          application_status := "pending_approval", workflow_complete := false },
        ?_, rfl, rfl, ?_⟩
      · simp only [processApproval, happ, hrec, hauth,
          if_neg (not_not_intro hrev), if_pos hdec, if_neg hcount]
      · rw [findApplication_updateApplications (updateApprovalRecord db rec.id ad actor)
          appId (fun a => { a with status := "pending_approval" }) (fun a => rfl)]
        have : findApplication (updateApprovalRecord db rec.id ad actor) appId =
            findApplication db appId := rfl
        rw [this, happ]; rfl
  · intro hdec
    have hne : ad.decision ≠ "approved" := by rw [hdec]; simp
    refine ⟨cancelPendingApprovals (updateApplications
        (updateApprovalRecord db rec.id ad actor) appId
        (fun a =>
          { a with
              status := "rejected"
              rejected_at := true
              rejection_reason := ad.rejection_reason })) appId,
      { approval := decideRecord ad actor rec, application_status := "rejected",
        workflow_complete := false }, ?_, rfl, rfl, ?_, ?_, ?_⟩
    · simp only [processApproval, happ, hrec, hauth,
        if_neg (not_not_intro hrev), if_neg hne, if_pos hdec]
    · show findApplication (updateApplications
          (updateApprovalRecord db rec.id ad actor) appId _) appId = _
      rw [findApplication_updateApplications (updateApprovalRecord db rec.id ad actor)
        appId (fun a =>
          { a with
              status := "rejected"
              rejected_at := true
              rejection_reason := ad.rejection_reason }) (fun a => rfl)]
      have : findApplication (updateApprovalRecord db rec.id ad actor) appId =
          findApplication db appId := rfl
      rw [this, happ]; rfl
    · intro r hr
      simp only [cancelPendingApprovals] at hr
      obtain ⟨s, hs, rfl⟩ := List.mem_map.1 hr
      by_cases hc : (s.loan_application_id == appId && s.status == "pending") = true
      · rw [if_pos hc]
        intro _ h
        simp at h
      · rw [if_neg hc]
        intro hid hpend
        exact hc (by simp [hid, hpend])
    · intro r hr hid hpend hne2
      have hbeq : (r.id == rec.id) = false := beq_eq_false_iff_ne.2 hne2
      have hmem1 : r ∈ (updateApprovalRecord db rec.id ad actor).approvals := by
        simp only [updateApprovalRecord]
        refine List.mem_map.2 ⟨r, hr, ?_⟩
        rw [hbeq]
        simp
      have hcond : (r.loan_application_id == appId && r.status == "pending") = true := by
        simp [hid, hpend]
      simp only [cancelPendingApprovals]
      exact List.mem_map.2 ⟨r, hmem1, by rw [if_pos hcond]⟩

def app3 : Application :=
  { id := 1, status := "submitted", requested_amount := 200000,
    approved_at := false, rejected_at := false, rejection_reason := none }

def rec3a : ApprovalRecord :=
  { id := 1, loan_application_id := 1, approval_level := 1,
    required_role := "loan_officer", status := "pending", is_required := true,
    approved_by := none, approved_at := false, comments := none,
    rejection_reason := none }

def rec3b : ApprovalRecord :=
  { id := 2, loan_application_id := 1, approval_level := 2,
    required_role := "branch_manager", status := "pending", is_required := true,
    approved_by := none, approved_at := false, comments := none,
    rejection_reason := none }

def db3w : DB :=
  { applications := [app3], approvals := [rec3a, rec3b],
    users := [{ id := 9, role := "branch_manager" }] }

def adApprove : ApprovalData :=
  { decision := "approved", comments := none, rejection_reason := none }

/-- **C3 witness.**  On a two-level chain, approving level 1 leaves one
pending required record, so the application moves to `pending_approval`
and the workflow is not complete. -/
theorem processApproval_decision_outcomes_witness :
    (findApplication db3w 1 = some app3 ∧
      (app3.status = "submitted" ∨ app3.status = "under_review" ∨
        app3.status = "pending_approval") ∧
      findPendingApproval db3w 1 1 = some rec3a ∧
      validateApprovalAuthority db3w 9 rec3a.required_role app3.requested_amount =
        Except.ok () ∧
      adApprove.decision = "approved" ∧
      countPendingRequired (updateApprovalRecord db3w rec3a.id adApprove 9) 1 ≠ 0) ∧
    (∃ db2 res, processApproval db3w 1 1 adApprove 9 = Except.ok (db2, res) ∧
      res.application_status = "pending_approval" ∧ res.workflow_complete = false ∧
      findApplication db2 1 = some { app3 with status := "pending_approval" }) :=
  ⟨⟨rfl, Or.inl rfl, rfl, rfl, rfl, by exact one_ne_zero⟩,
   ((processApproval_decision_outcomes db3w 1 1 9 adApprove app3 rec3a rfl
      (Or.inl rfl) rfl rfl).1 rfl).2 (by exact one_ne_zero)⟩

/-- Every record of the current level in the escalate-update output is
`escalated` with the reason as comment. -/
lemma escalate_map_property (l : List ApprovalRecord) (appId lvl : ℕ)
    (reason : String) :
    ∀ r ∈ markEscalated appId lvl reason l,
      r.loan_application_id = appId → r.approval_level = lvl →
        r.status = "escalated" ∧ r.comments = some reason := by
  intro r hr
  obtain ⟨s, hs, rfl⟩ := List.mem_map.1 hr
  by_cases hc : (s.loan_application_id == appId && s.approval_level == lvl) = true
  · rw [if_pos hc]
    intro _ _
    exact ⟨rfl, rfl⟩
  · rw [if_neg hc]
    intro h1 h2
    exact absurd (by simp [h1, h2]) hc

/-- **C6.**  `escalateApproval` fails with `CannotEscalate` exactly when
the chain table has no role at `currentLevel + 1` for the application's
amount; otherwise an existing record at the next level is reset to a
required `pending` record (no row added) or a fresh required `pending`
record is inserted (one row added), and every record at the current level
is marked `escalated` carrying the reason. -/
theorem escalateApproval_spec (db : DB) (appId lvl : ℕ) (reason : String)
    (app : Application) (happ : findApplication db appId = some app) :
    (getRequiredRoleForLevel (lvl + 1) app.requested_amount = none →
      escalateApproval db appId lvl reason =
        Except.error "Cannot escalate beyond highest approval level") ∧
    (∀ role, getRequiredRoleForLevel (lvl + 1) app.requested_amount = some role →
      ∃ db2 res, escalateApproval db appId lvl reason = Except.ok (db2, res) ∧
        res.escalated_to_level = lvl + 1 ∧ res.required_role = role ∧
        (∃ r ∈ db2.approvals, r.loan_application_id = appId ∧
          r.approval_level = lvl + 1 ∧ r.status = "pending" ∧ r.is_required = true) ∧
        (∀ r ∈ db2.approvals, r.loan_application_id = appId → r.approval_level = lvl →
          r.status = "escalated" ∧ r.comments = some reason) ∧
        (db.approvals.find? (fun r =>
            r.loan_application_id == appId && r.approval_level == lvl + 1) = none →
          db2.approvals.length = db.approvals.length + 1) ∧
        (∀ ex, db.approvals.find? (fun r =>
            r.loan_application_id == appId && r.approval_level == lvl + 1) = some ex →
          db2.approvals.length = db.approvals.length)) := by
  have hsucc : ((lvl + 1 == lvl) : Bool) = false :=
    beq_eq_false_iff_ne.2 (Nat.succ_ne_self lvl)
  constructor
  · intro hnone
    simp only [escalateApproval, happ, hnone]
  · intro role hrole
    cases hfind : db.approvals.find? (fun r =>
        r.loan_application_id == appId && r.approval_level == lvl + 1) with
    | none =>
      refine ⟨⟨db.applications,
          markEscalated appId lvl reason
            (db.approvals ++ [newEscalationRecord db appId (lvl + 1) role]),
          db.users⟩,
        ⟨lvl + 1, role, reason⟩, ?_, rfl, rfl, ?_, ?_, ?_, ?_⟩
      · simp only [escalateApproval, happ, hrole, hfind]
      · -- the freshly inserted record survives the escalate-update
        refine ⟨newEscalationRecord db appId (lvl + 1) role, ?_, rfl, rfl, rfl, rfl⟩
        refine List.mem_map.2 ⟨_, List.mem_append_right _ (List.mem_singleton.2 rfl), ?_⟩
        rw [if_neg]
        rw [show (newEscalationRecord db appId (lvl + 1) role).approval_level =
          lvl + 1 from rfl, hsucc, Bool.and_false]
        simp
      · exact escalate_map_property _ appId lvl reason
      · intro _
        simp [markEscalated]
      · intro ex hex
        simp at hex
    | some ex =>
      refine ⟨⟨db.applications,
          markEscalated appId lvl reason (resetApprovalRow ex.id db.approvals),
          db.users⟩,
        ⟨lvl + 1, role, reason⟩, ?_, rfl, rfl, ?_, ?_, ?_, ?_⟩
      · simp only [escalateApproval, happ, hrole, hfind]
      · -- the reset record at the next level survives the escalate-update
        have hpred := List.find?_some hfind
        have hexapp : ex.loan_application_id = appId := by
          have h := hpred
          rw [Bool.and_eq_true] at h
          exact beq_iff_eq.mp h.1
        have hexlvl : ex.approval_level = lvl + 1 := by
          have h := hpred
          rw [Bool.and_eq_true] at h
          exact beq_iff_eq.mp h.2
        refine ⟨{ ex with status := "pending", is_required := true }, ?_,
          hexapp, hexlvl, rfl, rfl⟩
        refine List.mem_map.2 ⟨{ ex with status := "pending", is_required := true },
          List.mem_map.2 ⟨ex, List.mem_of_find?_eq_some hfind, by
            rw [if_pos (by simp)]⟩, ?_⟩
        rw [if_neg]
        rw [show ({ ex with status := "pending", is_required := true } :
            ApprovalRecord).approval_level = ex.approval_level from rfl, hexlvl,
          hsucc, Bool.and_false]
        simp
      · exact escalate_map_property _ appId lvl reason
      · intro hnone
        simp at hnone
      · intro ex2 _
        simp [markEscalated, resetApprovalRow]

/-- **C6 witness.**  Escalating level 1 of a two-level chain: level 2's
role is `branch_manager` and the existing level-2 record is reused. -/
theorem escalateApproval_spec_witness :
    (findApplication db3w 1 = some app3 ∧
      getRequiredRoleForLevel (1 + 1) app3.requested_amount = some "branch_manager") ∧
    (∃ db2 res, escalateApproval db3w 1 1 "second opinion" = Except.ok (db2, res) ∧
      res.escalated_to_level = 1 + 1 ∧ res.required_role = "branch_manager" ∧
      (∃ r ∈ db2.approvals, r.loan_application_id = 1 ∧
        r.approval_level = 1 + 1 ∧ r.status = "pending" ∧ r.is_required = true) ∧
      (∀ r ∈ db2.approvals, r.loan_application_id = 1 → r.approval_level = 1 →
        r.status = "escalated" ∧ r.comments = some "second opinion") ∧
      (db3w.approvals.find? (fun r =>
          r.loan_application_id == 1 && r.approval_level == 1 + 1) = none →
        db2.approvals.length = db3w.approvals.length + 1) ∧
      (∀ ex, db3w.approvals.find? (fun r =>
          r.loan_application_id == 1 && r.approval_level == 1 + 1) = some ex →
        db2.approvals.length = db3w.approvals.length)) :=
  ⟨⟨rfl, rfl⟩,
   (escalateApproval_spec db3w 1 1 "second opinion" app3 rfl).2 "branch_manager" rfl⟩

/-- Each `bulkApprove` iteration keeps the summary counters consistent
with the success/failure lists and accounts for exactly one item, leaving
the `total` counter untouched. -/
lemma bulk_foldl_counts (actor : ℕ) :
    ∀ (items : List BulkItem) (acc : DB × BulkResults),
    acc.2.summary.failed = acc.2.failed.length →
    acc.2.summary.approved + acc.2.summary.rejected = acc.2.successful.length →
    (items.foldl (bulkStep actor) acc).2.summary.failed =
      (items.foldl (bulkStep actor) acc).2.failed.length ∧
    (items.foldl (bulkStep actor) acc).2.summary.approved +
      (items.foldl (bulkStep actor) acc).2.summary.rejected =
      (items.foldl (bulkStep actor) acc).2.successful.length ∧
    (items.foldl (bulkStep actor) acc).2.successful.length +
      (items.foldl (bulkStep actor) acc).2.failed.length =
      acc.2.successful.length + acc.2.failed.length + items.length ∧
    (items.foldl (bulkStep actor) acc).2.summary.total = acc.2.summary.total := by
  intro items
  induction items with
  | nil =>
    intro acc h1 h2
    refine ⟨h1, h2, ?_, rfl⟩
    simp
  | cons item rest ih =>
    intro acc h1 h2
    rw [List.foldl_cons]
    have hstep : (bulkStep actor acc item).2.summary.failed =
        (bulkStep actor acc item).2.failed.length ∧
        (bulkStep actor acc item).2.summary.approved +
          (bulkStep actor acc item).2.summary.rejected =
          (bulkStep actor acc item).2.successful.length ∧
        (bulkStep actor acc item).2.successful.length +
          (bulkStep actor acc item).2.failed.length =
          acc.2.successful.length + acc.2.failed.length + 1 ∧
        (bulkStep actor acc item).2.summary.total = acc.2.summary.total := by
      unfold bulkStep
      cases processApproval acc.1 item.application_id item.approval_level
          { decision := item.decision, comments := item.comments,
            rejection_reason := item.rejection_reason } actor with
      | ok pr =>
        by_cases hd : item.decision = "approved" <;> simp [hd, h1, h2] <;> omega
      | error e =>
        simp [h1, h2]
        omega
    obtain ⟨s1, s2, s3, s4⟩ := hstep
    obtain ⟨r1, r2, r3, r4⟩ := ih (bulkStep actor acc item) s1 s2
    refine ⟨r1, r2, ?_, by rw [r4, s4]⟩
    simp only [List.length_cons]
    omega

def bulkItems : List BulkItem :=
  [{ application_id := 1, approval_level := 1, decision := "approved",
     comments := none, rejection_reason := none },
   { application_id := 2, approval_level := 1, decision := "approved",
     comments := none, rejection_reason := none }]

/-- **C7.**  `bulkApprove` treats each item independently: the summary
always counts `total = |items|`, every item lands in exactly one of the
success/failure lists, `failed` matches the failure list, and
`approved + rejected` matches the success list.  Concretely, a batch of
one valid item and one item referencing a missing application yields one
success and one failure, with the valid item's approval committed in the
returned state despite the other item's failure. -/
theorem bulkApprove_per_item_independence :
    (∀ (db : DB) (items : List BulkItem) (actor : ℕ),
      (bulkApprove db items actor).2.summary.total = items.length ∧
      (bulkApprove db items actor).2.successful.length +
        (bulkApprove db items actor).2.failed.length = items.length ∧
      (bulkApprove db items actor).2.summary.failed =
        (bulkApprove db items actor).2.failed.length ∧
      (bulkApprove db items actor).2.summary.approved +
        (bulkApprove db items actor).2.summary.rejected =
        (bulkApprove db items actor).2.successful.length) ∧
    ((bulkApprove db9 bulkItems 5).2.successful.length = 1 ∧
      (bulkApprove db9 bulkItems 5).2.failed = [(2, "Loan application not found")] ∧
      (bulkApprove db9 bulkItems 5).2.summary =
        { total := 2, approved := 1, rejected := 0, failed := 1 } ∧
      (findApplication (bulkApprove db9 bulkItems 5).1 1).map (fun a => a.status) =
        some "approved") := by
  constructor
  · intro db items actor
    obtain ⟨r1, r2, r3, r4⟩ := bulk_foldl_counts actor items
      (db, { successful := [], failed := [],
             summary := { total := items.length, approved := 0, rejected := 0,
                          failed := 0 } }) rfl rfl
    exact ⟨r4, by simpa using r3, r1, r2⟩
  · exact ⟨rfl, rfl, rfl, rfl⟩

/-! ### Exact arithmetic of the schedule loop (for the schedule invariants)

With a nonzero rate every quantity in `calculatePaymentSchedule` stays
finite, and the running balance follows the recursion below in exact
rational arithmetic. -/

/-- The exact running `remainingBalance` of the schedule loop:
`b 0 = P`, `b (i+1) = b i - (payment - b i * rate)`. -/
def exactBal (P r M : ℚ) : ℕ → ℚ
  | 0 => P
  | i + 1 => exactBal P r M i - (M - exactBal P r M i * r)

/-- The entry the loop writes at payment number `j` (for `1 ≤ j`) when the
final-period residual fold never fires. -/
def exactEntry (P r M : ℚ) (j : ℕ) : ScheduleEntry :=
  { payment_number := j
    payment_amount := some (round2 M)
    principal_amount := some (round2 (M - exactBal P r M (j - 1) * r))
    interest_amount := some (round2 (exactBal P r M (j - 1) * r))
    remaining_balance := some (round2 (max 0 (exactBal P r M j))) }

lemma exactBal_succ (P r M : ℚ) (i : ℕ) :
    exactBal P r M (i + 1) = exactBal P r M i - (M - exactBal P r M i * r) := rfl

/-- Closed form of the balance recursion. -/
lemma exactBal_formula (P r M : ℚ) (hr : r ≠ 0) (i : ℕ) :
    exactBal P r M i = M / r - (M / r - P) * (1 + r) ^ i := by
  induction i with
  | zero =>
    show P = M / r - (M / r - P) * (1 + r) ^ 0
    ring
  | succ i ih =>
    rw [exactBal_succ, ih]
    field_simp
    ring

/-- With the annuity payment, the exact balance is zero after `n`
periods. -/
lemma exactBal_annuity_zero (P r : ℚ) (hr : 0 < r) (n : ℕ) (hA : 1 < (1 + r) ^ n) :
    exactBal P r (P * (r * (1 + r) ^ n) / ((1 + r) ^ n - 1)) n = 0 := by
  have hAne : (1 + r) ^ n - 1 ≠ 0 := ne_of_gt (by linarith)
  rw [exactBal_formula _ _ _ (ne_of_gt hr)]
  field_simp
  ring

/-- With the annuity payment, the exact balance is antitone in the period
index. -/
lemma exactBal_annuity_antitone (P r : ℚ) (hP : 0 < P) (hr : 0 < r) (n : ℕ)
    (hA : 1 < (1 + r) ^ n) :
    ∀ i j : ℕ, i ≤ j →
      exactBal P r (P * (r * (1 + r) ^ n) / ((1 + r) ^ n - 1)) j ≤
        exactBal P r (P * (r * (1 + r) ^ n) / ((1 + r) ^ n - 1)) i := by
  intro i j hij
  have hApos : 0 < (1 + r) ^ n - 1 := by linarith
  have hMrP : P * (r * (1 + r) ^ n) / ((1 + r) ^ n - 1) / r - P =
      P / ((1 + r) ^ n - 1) := by
    field_simp
    ring
  rw [exactBal_formula _ _ _ (ne_of_gt hr), exactBal_formula _ _ _ (ne_of_gt hr),
    hMrP]
  have hpos : 0 ≤ P / ((1 + r) ^ n - 1) := le_of_lt (div_pos hP hApos)
  have hpow : (1 + r) ^ i ≤ (1 + r) ^ j := pow_le_pow_right₀ (by linarith) hij
  have := mul_le_mul_of_nonneg_left hpow hpos
  linarith

lemma round2_mono {x y : ℚ} (h : x ≤ y) : round2 x ≤ round2 y := by
  unfold round2
  have hz : round (x * 100) ≤ round (y * 100) := by
    rw [round_eq, round_eq]
    exact Int.floor_le_floor (by linarith)
  have h100 : (0 : ℚ) < 100 := by norm_num
  exact (div_le_div_iff_of_pos_right h100).2 (by exact_mod_cast hz)

lemma abs_round2_sub (x : ℚ) : |round2 x - x| ≤ 1 / 200 := by
  unfold round2
  have heq : (round (x * 100) : ℚ) / 100 - x =
      ((round (x * 100) : ℚ) - x * 100) / 100 := by ring
  rw [heq, abs_div, show |(100 : ℚ)| = 100 from by norm_num]
  have h := abs_sub_round (x * 100)
  rw [abs_sub_comm] at h
  linarith

lemma round2_eq_of_bounds (x : ℚ) (z : ℤ) (h1 : (z : ℚ) ≤ x * 100 + 1 / 2)
    (h2 : x * 100 + 1 / 2 < z + 1) : round2 x = (z : ℚ) / 100 := by
  unfold round2
  rw [round_eq, Int.floor_eq_iff.2 ⟨h1, h2⟩]

lemma sum_round2_err : ∀ l : List ℚ,
    |(l.map round2).sum - l.sum| ≤ (l.length : ℚ) * (1 / 200) := by
  intro l
  induction l with
  | nil => simp
  | cons x xs ih =>
    simp only [List.map_cons, List.sum_cons, List.length_cons]
    have key : round2 x + (xs.map round2).sum - (x + xs.sum) =
        (round2 x - x) + ((xs.map round2).sum - xs.sum) := by ring
    rw [key]
    have h1 := abs_round2_sub x
    have h2 := abs_add (round2 x - x) ((xs.map round2).sum - xs.sum)
    push_cast
    linarith

lemma telescope_sum (B : ℕ → ℚ) : ∀ n : ℕ,
    ((List.range n).map (fun t => B t - B (t + 1))).sum = B 0 - B n := by
  intro n
  induction n with
  | zero => simp
  | succ m ih =>
    rw [List.range_succ, List.map_append, List.sum_append, ih]
    simp only [List.map_cons, List.map_nil, List.sum_cons, List.sum_nil]
    ring

/-- With a finite payment `M` whose exact final balance does not trip the
`> 0.01` residual fold, the loop writes exactly the entries of the exact
recursion. -/
lemma scheduleFrom_exact (P r M : ℚ) (n : ℕ)
    (hla : exactBal P r M n ≤ 1 / 100) :
    ∀ (k j : ℕ), j + k = n →
      scheduleFrom (some M) r n (j + 1) (some (exactBal P r M j)) k =
        (List.range k).map (fun t => exactEntry P r M (j + t + 1)) := by
  intro k
  induction k with
  | zero =>
    intro j hj
    simp [scheduleFrom]
  | succ k ih =>
    intro j hj
    have hcond : ((j + 1 == n) &&
        jgt (some (exactBal P r M (j + 1))) (some (1 / 100))) = false := by
      by_cases hjn : j + 1 = n
      · have hgt : jgt (some (exactBal P r M (j + 1))) (some (1 / 100)) = false := by
          rw [hjn]
          simp only [jgt]
          exact decide_eq_false (not_lt.2 hla)
        rw [hgt, Bool.and_false]
      · rw [beq_eq_false_iff_ne.2 hjn, Bool.false_and]
    simp only [scheduleFrom, jmul, jsub, jround2, jmax0]
    rw [show exactBal P r M j - (M - exactBal P r M j * r) = exactBal P r M (j + 1)
      from (exactBal_succ P r M j).symm]
    rw [hcond]
    simp only [Bool.false_eq_true, if_false]
    rw [ih (j + 1) (by omega)]
    rw [List.range_succ_eq_map, List.map_cons, List.map_map]
    refine List.cons_eq_cons.2 ⟨?_, ?_⟩
    · simp [exactEntry]
    · apply List.map_congr_left
      intro t ht
      simp only [Function.comp_apply]
      rw [show j + 1 + t + 1 = j + (t + 1) + 1 from by omega]

/-- For positive principal and rate, the schedule of
`calculatePaymentSchedule` is the list of exact entries. -/
lemma cps_schedule_exact (P rate : ℚ) (n : ℕ) (hrate : 0 < rate)
    (hn1 : 1 ≤ n) :
    (calculatePaymentSchedule P rate n).schedule =
      (List.range n).map (fun t =>
        exactEntry P (rate / 100 / 12)
          (P * (rate / 100 / 12 * (1 + rate / 100 / 12) ^ n) /
            ((1 + rate / 100 / 12) ^ n - 1)) (0 + t + 1)) := by
  have hr : 0 < rate / 100 / 12 := by positivity
  have hA : 1 < (1 + rate / 100 / 12) ^ n :=
    one_lt_pow₀ (by linarith) (by omega)
  have hAne : (1 + rate / 100 / 12) ^ n - 1 ≠ 0 := ne_of_gt (by linarith)
  have hjdiv : jdiv (some (P * (rate / 100 / 12 * (1 + rate / 100 / 12) ^ n)))
      (some ((1 + rate / 100 / 12) ^ n - 1)) =
      some (P * (rate / 100 / 12 * (1 + rate / 100 / 12) ^ n) /
        ((1 + rate / 100 / 12) ^ n - 1)) := by
    simp [jdiv, hAne]
  have hla : exactBal P (rate / 100 / 12)
      (P * (rate / 100 / 12 * (1 + rate / 100 / 12) ^ n) /
        ((1 + rate / 100 / 12) ^ n - 1)) n ≤ 1 / 100 := by
    rw [exactBal_annuity_zero P (rate / 100 / 12) hr n hA]
    norm_num
  have h0 : (calculatePaymentSchedule P rate n).schedule =
      scheduleFrom (jdiv (some (P * (rate / 100 / 12 * (1 + rate / 100 / 12) ^ n)))
        (some ((1 + rate / 100 / 12) ^ n - 1))) (rate / 100 / 12) n 1 (some P) n := rfl
  rw [h0, hjdiv]
  exact scheduleFrom_exact P (rate / 100 / 12) _ n hla n 0 (by omega)

/-- **C5 (amended).**  For principal > 0, rate > 0 and term 1..240: the
schedule has one entry per period; the final entry's remaining balance is
exactly 0; the stored remaining balances are monotonically non-increasing
(adjacent entries may round to the same cent, so not strictly decreasing);
and the stored principal portions (each independently rounded to the cent,
with no compensation in the final entry) sum to the principal within
n × half a cent. -/
theorem calculatePaymentSchedule_invariants (P rate : ℚ) (n : ℕ)
    (hP : 0 < P) (hrate : 0 < rate) (hn1 : 1 ≤ n) (hn2 : n ≤ 240) :
    (calculatePaymentSchedule P rate n).schedule.length = n ∧
    (∃ e ∈ (calculatePaymentSchedule P rate n).schedule,
      e.payment_number = n ∧ e.remaining_balance = some 0) ∧
    (∀ i j : ℕ, ∀ hi : i < (calculatePaymentSchedule P rate n).schedule.length,
      ∀ hj : j < (calculatePaymentSchedule P rate n).schedule.length, i ≤ j →
      ∃ bi bj : ℚ,
        ((calculatePaymentSchedule P rate n).schedule.get ⟨i, hi⟩).remaining_balance =
          some bi ∧
        ((calculatePaymentSchedule P rate n).schedule.get ⟨j, hj⟩).remaining_balance =
          some bj ∧ bj ≤ bi) ∧
    (∃ ps : List ℚ,
      (calculatePaymentSchedule P rate n).schedule.map (fun e => e.principal_amount) =
        ps.map some ∧ |ps.sum - P| ≤ (n : ℚ) / 200) := by
  have hr : 0 < rate / 100 / 12 := by positivity
  have hA : 1 < (1 + rate / 100 / 12) ^ n :=
    one_lt_pow₀ (by linarith) (by omega)
  have hsch := cps_schedule_exact P rate n hrate hn1
  have hBn := exactBal_annuity_zero P (rate / 100 / 12) hr n hA
  have hmono := exactBal_annuity_antitone P (rate / 100 / 12) hP hr n hA
  refine ⟨?_, ?_, ?_, ?_⟩
  · rw [hsch]; simp
  · refine ⟨exactEntry P (rate / 100 / 12)
      (P * (rate / 100 / 12 * (1 + rate / 100 / 12) ^ n) /
        ((1 + rate / 100 / 12) ^ n - 1)) n, ?_, rfl, ?_⟩
    · rw [hsch]
      refine List.mem_map.2 ⟨n - 1, List.mem_range.2 (by omega), ?_⟩
      congr 1
      omega
    · simp only [exactEntry, hBn]
      norm_num [round2]
  · intro i j hi hj hij
    have hlen : (calculatePaymentSchedule P rate n).schedule.length = n := by
      rw [hsch]; simp
    have hget : ∀ (t : ℕ) (ht : t < (calculatePaymentSchedule P rate n).schedule.length),
        (calculatePaymentSchedule P rate n).schedule.get ⟨t, ht⟩ =
          exactEntry P (rate / 100 / 12)
            (P * (rate / 100 / 12 * (1 + rate / 100 / 12) ^ n) /
              ((1 + rate / 100 / 12) ^ n - 1)) (0 + t + 1) := by
      intro t ht
      rw [List.get_eq_getElem]
      have ht2 : t < n := by rw [← hlen]; exact ht
      simp only [hsch, List.getElem_map, List.getElem_range]
    refine ⟨round2 (max 0 (exactBal P (rate / 100 / 12)
        (P * (rate / 100 / 12 * (1 + rate / 100 / 12) ^ n) /
          ((1 + rate / 100 / 12) ^ n - 1)) (0 + i + 1))),
      round2 (max 0 (exactBal P (rate / 100 / 12)
        (P * (rate / 100 / 12 * (1 + rate / 100 / 12) ^ n) /
          ((1 + rate / 100 / 12) ^ n - 1)) (0 + j + 1))), ?_, ?_, ?_⟩
    · rw [hget i hi]; rfl
    · rw [hget j hj]; rfl
    · exact round2_mono (max_le_max (le_refl 0) (hmono (0 + i + 1) (0 + j + 1)
        (by omega)))
  · refine ⟨(List.range n).map (fun t => round2 (P * (rate / 100 / 12 *
      (1 + rate / 100 / 12) ^ n) / ((1 + rate / 100 / 12) ^ n - 1) -
      exactBal P (rate / 100 / 12) (P * (rate / 100 / 12 *
        (1 + rate / 100 / 12) ^ n) / ((1 + rate / 100 / 12) ^ n - 1)) t *
      (rate / 100 / 12))), ?_, ?_⟩
    · rw [hsch, List.map_map, List.map_map]
      apply List.map_congr_left
      intro t ht
      simp only [Function.comp_apply, exactEntry]
      rw [show 0 + t + 1 - 1 = t from by omega]
    · rw [show (List.range n).map (fun t => round2 (P * (rate / 100 / 12 *
          (1 + rate / 100 / 12) ^ n) / ((1 + rate / 100 / 12) ^ n - 1) -
          exactBal P (rate / 100 / 12) (P * (rate / 100 / 12 *
            (1 + rate / 100 / 12) ^ n) / ((1 + rate / 100 / 12) ^ n - 1)) t *
          (rate / 100 / 12))) =
        ((List.range n).map (fun t => P * (rate / 100 / 12 *
          (1 + rate / 100 / 12) ^ n) / ((1 + rate / 100 / 12) ^ n - 1) -
          exactBal P (rate / 100 / 12) (P * (rate / 100 / 12 *
            (1 + rate / 100 / 12) ^ n) / ((1 + rate / 100 / 12) ^ n - 1)) t *
          (rate / 100 / 12))).map round2 from by rw [List.map_map]; rfl]
      have herr := sum_round2_err ((List.range n).map (fun t => P * (rate / 100 / 12 *
        (1 + rate / 100 / 12) ^ n) / ((1 + rate / 100 / 12) ^ n - 1) -
        exactBal P (rate / 100 / 12) (P * (rate / 100 / 12 *
          (1 + rate / 100 / 12) ^ n) / ((1 + rate / 100 / 12) ^ n - 1)) t *
        (rate / 100 / 12)))
      have hsum : ((List.range n).map (fun t => P * (rate / 100 / 12 *
          (1 + rate / 100 / 12) ^ n) / ((1 + rate / 100 / 12) ^ n - 1) -
          exactBal P (rate / 100 / 12) (P * (rate / 100 / 12 *
            (1 + rate / 100 / 12) ^ n) / ((1 + rate / 100 / 12) ^ n - 1)) t *
          (rate / 100 / 12))).sum = P := by
        rw [show ((List.range n).map (fun t => P * (rate / 100 / 12 *
            (1 + rate / 100 / 12) ^ n) / ((1 + rate / 100 / 12) ^ n - 1) -
            exactBal P (rate / 100 / 12) (P * (rate / 100 / 12 *
              (1 + rate / 100 / 12) ^ n) / ((1 + rate / 100 / 12) ^ n - 1)) t *
            (rate / 100 / 12))) =
          ((List.range n).map (fun t =>
            exactBal P (rate / 100 / 12) (P * (rate / 100 / 12 *
              (1 + rate / 100 / 12) ^ n) / ((1 + rate / 100 / 12) ^ n - 1)) t -
            exactBal P (rate / 100 / 12) (P * (rate / 100 / 12 *
              (1 + rate / 100 / 12) ^ n) / ((1 + rate / 100 / 12) ^ n - 1)) (t + 1)))
          from by
            apply List.map_congr_left
            intro t _
            rw [exactBal_succ]
            ring]
        rw [telescope_sum, hBn]
        show P - 0 = P
        ring
      rw [hsum] at herr
      have hlen2 : ((List.range n).map (fun t => P * (rate / 100 / 12 *
          (1 + rate / 100 / 12) ^ n) / ((1 + rate / 100 / 12) ^ n - 1) -
          exactBal P (rate / 100 / 12) (P * (rate / 100 / 12 *
            (1 + rate / 100 / 12) ^ n) / ((1 + rate / 100 / 12) ^ n - 1)) t *
          (rate / 100 / 12))).length = n := by simp
      rw [hlen2] at herr
      calc |(((List.range n).map (fun t => P * (rate / 100 / 12 *
            (1 + rate / 100 / 12) ^ n) / ((1 + rate / 100 / 12) ^ n - 1) -
            exactBal P (rate / 100 / 12) (P * (rate / 100 / 12 *
              (1 + rate / 100 / 12) ^ n) / ((1 + rate / 100 / 12) ^ n - 1)) t *
            (rate / 100 / 12))).map round2).sum - P| ≤ (n : ℚ) * (1 / 200) := herr
        _ = (n : ℚ) / 200 := by ring

/-- **C5 witness.**  The invariants instantiated at principal 100,
rate 12%, term 2. -/
theorem calculatePaymentSchedule_invariants_witness :
    (0 : ℚ) < 100 ∧ (0 : ℚ) < 12 ∧ 1 ≤ 2 ∧ 2 ≤ 240 ∧
    ((calculatePaymentSchedule 100 12 2).schedule.length = 2 ∧
      (∃ e ∈ (calculatePaymentSchedule 100 12 2).schedule,
        e.payment_number = 2 ∧ e.remaining_balance = some 0) ∧
      (∀ i j : ℕ, ∀ hi : i < (calculatePaymentSchedule 100 12 2).schedule.length,
        ∀ hj : j < (calculatePaymentSchedule 100 12 2).schedule.length, i ≤ j →
        ∃ bi bj : ℚ,
          ((calculatePaymentSchedule 100 12 2).schedule.get ⟨i, hi⟩).remaining_balance =
            some bi ∧
          ((calculatePaymentSchedule 100 12 2).schedule.get ⟨j, hj⟩).remaining_balance =
            some bj ∧ bj ≤ bi) ∧
      (∃ ps : List ℚ,
        (calculatePaymentSchedule 100 12 2).schedule.map (fun e => e.principal_amount) =
          ps.map some ∧ |ps.sum - 100| ≤ (2 : ℚ) / 200)) :=
  ⟨by norm_num, by norm_num, by norm_num, by norm_num,
   calculatePaymentSchedule_invariants 100 12 2 (by norm_num) (by norm_num)
     (by norm_num) (by norm_num)⟩

/-- **C5 counterexample.**  At principal 0.02, rate 12%, term 3, the three
stored principal portions each round to 0.01 and sum to 0.03 ≠ 0.02 (the
rounding residue is not folded into the final entry), and the stored
remaining balances of entries 1 and 2 are both 0.01, so the stored
balances do not strictly decrease. -/
theorem calculatePaymentSchedule_rounding_counterexample :
    ((calculatePaymentSchedule (1 / 50) 12 3).schedule.map
        (fun e => e.principal_amount)) =
      [some (1 / 100), some (1 / 100), some (1 / 100)] ∧
    ¬ ((1 : ℚ) / 100 + 1 / 100 + 1 / 100 = 1 / 50) ∧
    ((calculatePaymentSchedule (1 / 50) 12 3).schedule.map
        (fun e => e.remaining_balance)) =
      [some (1 / 100), some (1 / 100), some 0] ∧
    (∀ ps : List ℚ,
      (calculatePaymentSchedule (1 / 50) 12 3).schedule.map
        (fun e => e.principal_amount) = ps.map some → ps.sum ≠ 1 / 50) := by
  have hsch := cps_schedule_exact (1 / 50) 12 3 (by norm_num) (by norm_num)
  set r0 : ℚ := 12 / 100 / 12 with hr0
  set M0 : ℚ := 1 / 50 * (r0 * (1 + r0) ^ 3) / ((1 + r0) ^ 3 - 1) with hM0
  have e0 : exactBal (1 / 50) r0 M0 0 = 1 / 50 := rfl
  have e1 : exactBal (1 / 50) r0 M0 1 = 20301 / 1515050 := by
    show exactBal (1 / 50) r0 M0 0 - (M0 - exactBal (1 / 50) r0 M0 0 * r0) =
      20301 / 1515050
    rw [e0, hM0, hr0]
    norm_num
  have e2 : exactBal (1 / 50) r0 M0 2 = 10201 / 1515050 := by
    show exactBal (1 / 50) r0 M0 1 - (M0 - exactBal (1 / 50) r0 M0 1 * r0) =
      10201 / 1515050
    rw [e1, hM0, hr0]
    norm_num
  have e3 : exactBal (1 / 50) r0 M0 3 = 0 := by
    show exactBal (1 / 50) r0 M0 2 - (M0 - exactBal (1 / 50) r0 M0 2 * r0) = 0
    rw [e2, hM0, hr0]
    norm_num
  have hp0 : round2 (M0 - exactBal (1 / 50) r0 M0 0 * r0) = 1 / 100 := by
    rw [e0, show M0 - 1 / 50 * r0 = 200 / 30301 from by rw [hM0, hr0]; norm_num,
      round2_eq_of_bounds (200 / 30301) 1 (by norm_num) (by norm_num)]
    norm_num
  have hp1 : round2 (M0 - exactBal (1 / 50) r0 M0 1 * r0) = 1 / 100 := by
    rw [e1, show M0 - 20301 / 1515050 * r0 = 202 / 30301 from by
        rw [hM0, hr0]; norm_num,
      round2_eq_of_bounds (202 / 30301) 1 (by norm_num) (by norm_num)]
    norm_num
  have hp2 : round2 (M0 - exactBal (1 / 50) r0 M0 2 * r0) = 1 / 100 := by
    rw [e2, show M0 - 10201 / 1515050 * r0 = 10201 / 1515050 from by
        rw [hM0, hr0]; norm_num,
      round2_eq_of_bounds (10201 / 1515050) 1 (by norm_num) (by norm_num)]
    norm_num
  have hb1 : round2 (max 0 (exactBal (1 / 50) r0 M0 1)) = 1 / 100 := by
    rw [e1, max_eq_right (by norm_num : (0 : ℚ) ≤ 20301 / 1515050),
      round2_eq_of_bounds (20301 / 1515050) 1 (by norm_num) (by norm_num)]
    norm_num
  have hb2 : round2 (max 0 (exactBal (1 / 50) r0 M0 2)) = 1 / 100 := by
    rw [e2, max_eq_right (by norm_num : (0 : ℚ) ≤ 10201 / 1515050),
      round2_eq_of_bounds (10201 / 1515050) 1 (by norm_num) (by norm_num)]
    norm_num
  have hb3 : round2 (max 0 (exactBal (1 / 50) r0 M0 3)) = 0 := by
    rw [e3, max_self]
    simp [round2]
  have hprin : ((calculatePaymentSchedule (1 / 50) 12 3).schedule.map
      (fun e => e.principal_amount)) =
      [some (1 / 100), some (1 / 100), some (1 / 100)] := by
    rw [hsch, show List.range 3 = [0, 1, 2] from rfl]
    simp only [List.map_cons, List.map_nil, exactEntry]
    rw [show (0 : ℕ) + 0 + 1 - 1 = 0 from rfl, show (0 : ℕ) + 1 + 1 - 1 = 1 from rfl,
      show (0 : ℕ) + 2 + 1 - 1 = 2 from rfl, hp0, hp1, hp2]
  refine ⟨hprin, by norm_num, ?_, ?_⟩
  · rw [hsch, show List.range 3 = [0, 1, 2] from rfl]
    simp only [List.map_cons, List.map_nil, exactEntry]
    rw [show (0 : ℕ) + 0 + 1 = 1 from rfl, show (0 : ℕ) + 1 + 1 = 2 from rfl,
      show (0 : ℕ) + 2 + 1 = 3 from rfl, hb1, hb2, hb3]
  · intro ps hps
    have hps2 : ps = [1 / 100, 1 / 100, 1 / 100] :=
      (List.map_injective_iff.2 (Option.some_injective ℚ)) (by rw [← hps, hprin]; rfl)
    rw [hps2]
    norm_num

end DTInvestment
